import Mathlib

/-! QtNetworkNg stream servers (`include/socket_server.h`)

A shallow embedding of the server templates declared and defined in
`socket_server.h`: `TcpServer`, `KcpServer`, the security overlay `WithSsl`
and its convenience composition `SslServer`.

Conventions of the embedding.

* A C++ call that may raise is given an `Outcome`: it either returns a value or
  throws an `Exception`.
* A member function's behaviour (`Beh`) is the list of calls it makes into code
  outside `socket_server.h` (its `trace`, in program order) and its `Outcome`.
* What the outside code answers (whether the handshake succeeds, fails or is
  interrupted by the deadline) is not decided by this header; it is supplied by
  an `Env`.
* `QSharedPointer<T>` is `Option T`; the null pointer is `none`.
-/

namespace QtNetworkNg

/-! ## Values of the surrounding libraries -/

/-- A C++ `float` value.  The header only stores, copies and passes such values
on; it never computes with them. -/
inductive CFloat where
  | finite (q : ℚ)
  | inf (negative : Bool)
  | nan
  deriving DecidableEq

/-- Qt's `QHostAddress`; `Any` is the special address `QHostAddress::Any`. -/
inductive QHostAddress where
  | Any
  | host (id : Nat)
  deriving DecidableEq

/-- The C++ exceptions the header distinguishes: `catch (TimeoutException &)`
matches `TimeoutException` and nothing else. -/
inductive Exception where
  | TimeoutException
  | other (what : String)
  deriving DecidableEq

/-- How a C++ call ends. -/
inductive Outcome (α : Type) where
  | returned (value : α)
  | thrown (e : Exception)
  deriving DecidableEq

/-- A `QSharedPointer<T>`: `none` is the null pointer. -/
abbrev QSharedPointer (α : Type) := Option α

/-- An object behind the `SocketLike` interface: either a transport-level
socket, or the adapter `asSocketLike` puts around an `SslSocket`, which is
determined by the two constructor arguments of that `SslSocket`. -/
inductive SocketLike (Conn Cfg : Type) where
  | transport (c : Conn)
  | ssl (rawSocket : Option (SocketLike Conn Cfg)) (config : Cfg)

/-- The object made by `QSharedPointer<SslSocket>::create(request, configuration)`:
it is identified by the raw connection and the configuration it was made from. -/
structure SslSocket (Conn Cfg : Type) where
  rawSocket : QSharedPointer (SocketLike Conn Cfg)
  config : Cfg

/-- Modelled from the spec: `asSocketLike(QSharedPointer<SslSocket>)` is declared
in `ssl.h`, which is missing; per the spec (4.3) it yields the Socket-Like
wrapper around the secure socket, which is never the null pointer. -/
def asSocketLike {Conn Cfg : Type} (s : SslSocket Conn Cfg) :
    QSharedPointer (SocketLike Conn Cfg) :=
  some (SocketLike.ssl s.rawSocket s.config)

/-! ## `BaseStreamServer` -/

/-- The lifecycle states of a server (spec, section 3). -/
inductive Lifecycle where
  | Created
  | Bound
  | Listening
  | Running
  | Stopping
  | Stopped
  deriving DecidableEq

/-- Modelled from the spec: the state of a `BaseStreamServer`.  The header only
holds a pointer to `BaseStreamServerPrivate`, which `socket_server.cpp` defines
and which is missing; the fields are the server configuration and the lifecycle
state of the spec's data model (section 3), read through the accessors the
header declares (`serverAddress()`, `serverPort()`, `allowReuseAddress()`,
`requestQueueSize()`, `userData()`). -/
structure BaseStreamServer where
  serverAddress : QHostAddress
  serverPort : Nat
  allowReuseAddress : Bool
  requestQueueSize : Int
  userData : Option Nat
  state : Lifecycle
  deriving DecidableEq

namespace BaseStreamServer

/-- Modelled from the spec: the constructor
`BaseStreamServer(const QHostAddress &serverAddress, quint16 serverPort)` is
defined in `socket_server.cpp`, which is missing; it records the bind address
and port, and the defaults are those of the spec (reuse-address true, request
queue size 100, no user data, state Created). -/
def ctorAddressPort (serverAddress : QHostAddress) (serverPort : Nat) : BaseStreamServer :=
  { serverAddress := serverAddress, serverPort := serverPort, allowReuseAddress := true,
    requestQueueSize := 100, userData := none, state := Lifecycle.Created }

/-- `BaseStreamServer(quint16 serverPort) : BaseStreamServer(QHostAddress::Any, serverPort) {}`. -/
def ctorPort (serverPort : Nat) : BaseStreamServer :=
  ctorAddressPort QHostAddress.Any serverPort

/-- A server has been activated when it is listening or running. -/
def activated (self : BaseStreamServer) : Prop :=
  self.state = Lifecycle.Listening ∨ self.state = Lifecycle.Running

instance (self : BaseStreamServer) : Decidable self.activated := by
  unfold activated; exact inferInstance

end BaseStreamServer

/-! ## Calls that leave the header -/

/-- The transport whose `createServer` is called. -/
inductive Transport where
  | Socket
  | KcpSocket
  deriving DecidableEq

/-- A request handler object as the header sees it: the two public members
`request` and `server` of `BaseRequestHandler`, and the remaining members of
the concrete `RequestHandler` type. -/
structure Handler (H Conn Cfg : Type) where
  members : H
  request : QSharedPointer (SocketLike Conn Cfg)
  server : Option BaseStreamServer

/-- A call into code outside `socket_server.h`, with the arguments passed. -/
inductive Event (H Conn Cfg : Type) where
  /-- the declaration `Timeout timeout(secs)` -/
  | timeout (secs : CFloat)
  /-- the call `QSharedPointer<SslSocket>::create(request, configuration)` -/
  | sslSocketCreate (request : QSharedPointer (SocketLike Conn Cfg)) (configuration : Cfg)
  /-- the call `s->handshake(asServer)` -/
  | handshake (s : SslSocket Conn Cfg) (asServer : Bool)
  /-- the call `Socket::createServer(address, port, backlog)` or `KcpSocket::createServer(...)` -/
  | createServer (kind : Transport) (address : QHostAddress) (port : Nat) (backlog : Int)
  /-- the declaration `RequestHandler handler;` -/
  | handlerConstruct
  /-- the call `handler.run()` on the handler in the given state -/
  | handlerRun (handler : Handler H Conn Cfg)
  /-- the call `close()` on a connection -/
  | close (conn : SocketLike Conn Cfg)
  /-- any other call made by code of `socket_server.cpp` -/
  | core (what : String)

/-- Behaviour of a member function: the calls it makes and how it ends. -/
structure Beh (Ev α : Type) where
  trace : List Ev
  result : Outcome α

/-- What the code outside the header answers. -/
structure Env (H Conn Cfg : Type) where
  /-- `QSharedPointer<SslSocket>::create(request, configuration)` either yields
  the new secure socket (`none`) or raises. -/
  createThrows : QSharedPointer (SocketLike Conn Cfg) → Cfg → Option Exception
  /-- `s->handshake(asServer)` run while a `Timeout` of `deadline` seconds
  is armed: it returns the success flag, or raises; when the deadline elapses
  first it raises `TimeoutException`. -/
  handshake : SslSocket Conn Cfg → Bool → CFloat → Outcome Bool
  /-- `Socket::createServer` / `KcpSocket::createServer` yield a listening socket. -/
  createServer : Transport → QHostAddress → Nat → Int → Conn
  /-- `SslConfiguration::testPurpose(commonName, countryCode, organization)`. -/
  testPurpose : String → String → String → Cfg
  /-- `handler.run()` returns, or raises. -/
  handlerRun : Handler H Conn Cfg → Outcome Unit

/-! ## Virtual functions -/

/-- The virtual functions `BaseStreamServer` declares with a definition of its
own (`socket_server.cpp`), as seen from a class whose objects have state `S`. -/
structure Virtuals (S H Conn Cfg : Type) where
  isSecure : S → Bool
  serverBind : S → Beh (Event H Conn Cfg) Bool
  serverActivate : S → Beh (Event H Conn Cfg) Bool
  serverClose : S → Beh (Event H Conn Cfg) Unit
  serviceActions : S → Beh (Event H Conn Cfg) Bool
  getRequest : S → Beh (Event H Conn Cfg) (QSharedPointer (SocketLike Conn Cfg))
  prepareRequest : S → QSharedPointer (SocketLike Conn Cfg) →
    Beh (Event H Conn Cfg) (QSharedPointer (SocketLike Conn Cfg))
  verifyRequest : S → QSharedPointer (SocketLike Conn Cfg) → Beh (Event H Conn Cfg) Bool
  handleError : S → QSharedPointer (SocketLike Conn Cfg) → Beh (Event H Conn Cfg) Unit
  shutdownRequest : S → QSharedPointer (SocketLike Conn Cfg) → Beh (Event H Conn Cfg) Unit
  closeRequest : S → QSharedPointer (SocketLike Conn Cfg) → Beh (Event H Conn Cfg) Unit

/-- The full table of virtual functions of a concrete server class: those of
`Virtuals` and the two pure virtual ones, `serverCreate` and `processRequest`. -/
structure ServerClass (S H Conn Cfg : Type) extends Virtuals S H Conn Cfg where
  serverCreate : S → Beh (Event H Conn Cfg) (QSharedPointer (SocketLike Conn Cfg))
  processRequest : S → QSharedPointer (SocketLike Conn Cfg) → Beh (Event H Conn Cfg) Unit

/-- Virtual functions a derived class `T` does not override: each runs the
base class's function on the base sub-object `up self`. -/
def Virtuals.inherited {S T H Conn Cfg : Type} (up : T → S) (v : Virtuals S H Conn Cfg) :
    Virtuals T H Conn Cfg where
  isSecure := fun self => v.isSecure (up self)
  serverBind := fun self => v.serverBind (up self)
  serverActivate := fun self => v.serverActivate (up self)
  serverClose := fun self => v.serverClose (up self)
  serviceActions := fun self => v.serviceActions (up self)
  getRequest := fun self => v.getRequest (up self)
  prepareRequest := fun self request => v.prepareRequest (up self) request
  verifyRequest := fun self request => v.verifyRequest (up self) request
  handleError := fun self request => v.handleError (up self) request
  shutdownRequest := fun self request => v.shutdownRequest (up self) request
  closeRequest := fun self request => v.closeRequest (up self) request

/-- The table of a derived class `T` that overrides nothing. -/
def ServerClass.inherited {S T H Conn Cfg : Type} (up : T → S) (c : ServerClass S H Conn Cfg) :
    ServerClass T H Conn Cfg where
  toVirtuals := c.toVirtuals.inherited up
  serverCreate := fun self => c.serverCreate (up self)
  processRequest := fun self request => c.processRequest (up self) request

/-! ## `TcpServer<RequestHandler>` and `KcpServer<RequestHandler>` -/

/-- Modelled from the spec: `asSocketLike` on a transport socket is declared in
`socket_utils.h` / `kcp.h`, which are missing; it yields the Socket-Like view of
the socket it is given. -/
def asSocketLikeTransport {Conn Cfg : Type} (c : Conn) : QSharedPointer (SocketLike Conn Cfg) :=
  some (SocketLike.transport c)

/-- An object of class `TcpServer<RequestHandler>`: the class adds no member to
its `BaseStreamServer` base. -/
structure TcpServer (H : Type) where
  base : BaseStreamServer

/-- An object of class `KcpServer<RequestHandler>`: the class adds no member to
its `BaseStreamServer` base. -/
structure KcpServer (H : Type) where
  base : BaseStreamServer

namespace TcpServer

variable {H Conn Cfg : Type}

/-- `TcpServer(const QHostAddress &serverAddress, quint16 serverPort)`. -/
def ctorAddressPort (serverAddress : QHostAddress) (serverPort : Nat) : TcpServer H :=
  ⟨BaseStreamServer.ctorAddressPort serverAddress serverPort⟩

/-- `TcpServer(quint16 serverPort) : BaseStreamServer(QHostAddress::Any, serverPort) {}`. -/
def ctorPort (serverPort : Nat) : TcpServer H :=
  ⟨BaseStreamServer.ctorAddressPort QHostAddress.Any serverPort⟩

/-- `QSharedPointer<SocketLike> TcpServer<RequestHandler>::serverCreate()`. -/
def serverCreate (env : Env H Conn Cfg) (self : TcpServer H) :
    Beh (Event H Conn Cfg) (QSharedPointer (SocketLike Conn Cfg)) :=
  ⟨[Event.createServer Transport.Socket self.base.serverAddress self.base.serverPort 0],
   Outcome.returned (asSocketLikeTransport
     (env.createServer Transport.Socket self.base.serverAddress self.base.serverPort 0))⟩

/-- `void TcpServer<RequestHandler>::processRequest(QSharedPointer<SocketLike> request)`;
`fresh` is the state the default constructor of `RequestHandler` leaves the
handler's own members in. -/
def processRequest (env : Env H Conn Cfg) (fresh : H) (self : TcpServer H)
    (request : QSharedPointer (SocketLike Conn Cfg)) : Beh (Event H Conn Cfg) Unit :=
  let handler : Handler H Conn Cfg := { members := fresh, request := none, server := none }
  let handler := { handler with request := request }
  let handler := { handler with server := some self.base }
  ⟨[Event.handlerConstruct, Event.handlerRun handler], env.handlerRun handler⟩

/-- The virtual functions of `TcpServer<RequestHandler>`: it overrides
`serverCreate` and `processRequest` and inherits the rest from `BaseStreamServer`. -/
def cls (env : Env H Conn Cfg) (fresh : H) (core : Virtuals BaseStreamServer H Conn Cfg) :
    ServerClass (TcpServer H) H Conn Cfg where
  toVirtuals := core.inherited TcpServer.base
  serverCreate := serverCreate env
  processRequest := processRequest env fresh

end TcpServer

namespace KcpServer

variable {H Conn Cfg : Type}

/-- `KcpServer(const QHostAddress &serverAddress, quint16 serverPort)`. -/
def ctorAddressPort (serverAddress : QHostAddress) (serverPort : Nat) : KcpServer H :=
  ⟨BaseStreamServer.ctorAddressPort serverAddress serverPort⟩

/-- `KcpServer(quint16 serverPort) : BaseStreamServer(QHostAddress::Any, serverPort) {}`. -/
def ctorPort (serverPort : Nat) : KcpServer H :=
  ⟨BaseStreamServer.ctorAddressPort QHostAddress.Any serverPort⟩

/-- `QSharedPointer<SocketLike> KcpServer<RequestHandler>::serverCreate()`. -/
def serverCreate (env : Env H Conn Cfg) (self : KcpServer H) :
    Beh (Event H Conn Cfg) (QSharedPointer (SocketLike Conn Cfg)) :=
  ⟨[Event.createServer Transport.KcpSocket self.base.serverAddress self.base.serverPort 0],
   Outcome.returned (asSocketLikeTransport
     (env.createServer Transport.KcpSocket self.base.serverAddress self.base.serverPort 0))⟩

/-- `void KcpServer<RequestHandler>::processRequest(QSharedPointer<SocketLike> request)`;
`fresh` is the state the default constructor of `RequestHandler` leaves the
handler's own members in. -/
def processRequest (env : Env H Conn Cfg) (fresh : H) (self : KcpServer H)
    (request : QSharedPointer (SocketLike Conn Cfg)) : Beh (Event H Conn Cfg) Unit :=
  let handler : Handler H Conn Cfg := { members := fresh, request := none, server := none }
  let handler := { handler with request := request }
  let handler := { handler with server := some self.base }
  ⟨[Event.handlerConstruct, Event.handlerRun handler], env.handlerRun handler⟩

/-- The virtual functions of `KcpServer<RequestHandler>`: it overrides
`serverCreate` and `processRequest` and inherits the rest from `BaseStreamServer`. -/
def cls (env : Env H Conn Cfg) (fresh : H) (core : Virtuals BaseStreamServer H Conn Cfg) :
    ServerClass (KcpServer H) H Conn Cfg where
  toVirtuals := core.inherited KcpServer.base
  serverCreate := serverCreate env
  processRequest := processRequest env fresh

end KcpServer

/-! ## `WithSsl<ServerType>` -/

/-- An object of class `WithSsl<ServerType>`: the `ServerType` sub-object and
the two private members. -/
structure WithSsl (S Cfg : Type) where
  base : S
  _configuration : Cfg
  _sslHandshakeTimeout : CFloat

namespace WithSsl

variable {S Cfg Conn H : Type}

/-- `WithSsl(const QHostAddress &serverAddress, quint16 serverPort)`;
`serverType` is the constructor `ServerType(serverAddress, serverPort)`. -/
def ctorAddressPort (env : Env H Conn Cfg) (serverType : QHostAddress → Nat → S)
    (serverAddress : QHostAddress) (serverPort : Nat) : WithSsl S Cfg :=
  { base := serverType serverAddress serverPort
    _sslHandshakeTimeout := CFloat.finite 5.0
    _configuration := env.testPurpose "SslServer" "CN" "QtNetworkNg" }

/-- `WithSsl(const QHostAddress &serverAddress, quint16 serverPort,
const SslConfiguration &configuration)`. -/
def ctorAddressPortConfiguration (serverType : QHostAddress → Nat → S)
    (serverAddress : QHostAddress) (serverPort : Nat) (configuration : Cfg) : WithSsl S Cfg :=
  { base := serverType serverAddress serverPort
    _configuration := configuration
    _sslHandshakeTimeout := CFloat.finite 5.0 }

/-- `WithSsl(quint16 serverPort)`. -/
def ctorPort (env : Env H Conn Cfg) (serverType : QHostAddress → Nat → S)
    (serverPort : Nat) : WithSsl S Cfg :=
  { base := serverType QHostAddress.Any serverPort
    _sslHandshakeTimeout := CFloat.finite 5.0
    _configuration := env.testPurpose "SslServer" "CN" "QtNetworkNg" }

/-- `WithSsl(quint16 serverPort, const SslConfiguration &configuration)`. -/
def ctorPortConfiguration (serverType : QHostAddress → Nat → S)
    (serverPort : Nat) (configuration : Cfg) : WithSsl S Cfg :=
  { base := serverType QHostAddress.Any serverPort
    _configuration := configuration
    _sslHandshakeTimeout := CFloat.finite 5.0 }

/-- `void WithSsl<ServerType>::setSslConfiguration(const SslConfiguration &)`. -/
def setSslConfiguration (self : WithSsl S Cfg) (configuration : Cfg) : WithSsl S Cfg :=
  { self with _configuration := configuration }

/-- `SslConfiguration WithSsl<ServerType>::sslConfiguration() const`. -/
def sslConfiguration (self : WithSsl S Cfg) : Cfg :=
  self._configuration

/-- `void WithSsl<ServerType>::setSslHandshakeTimeout(float)`. -/
def setSslHandshakeTimeout (self : WithSsl S Cfg) (sslHandshakeTimeout : CFloat) :
    WithSsl S Cfg :=
  { self with _sslHandshakeTimeout := sslHandshakeTimeout }

/-- `float WithSsl<ServerType>::sslHandshakeTimeout() const`. -/
def sslHandshakeTimeout (self : WithSsl S Cfg) : CFloat :=
  self._sslHandshakeTimeout

/-- `bool WithSsl<ServerType>::isSecure() const`. -/
def isSecure (_self : WithSsl S Cfg) : Bool :=
  true

/-- The `try` block of `prepareRequest`.  `returned (some p)` is the
`return asSocketLike(s);` inside the block, `returned none` is leaving the
block at its end, `thrown e` is leaving it by an exception. -/
def prepareRequestTry (env : Env H Conn Cfg) (self : WithSsl S Cfg)
    (request : QSharedPointer (SocketLike Conn Cfg)) :
    Beh (Event H Conn Cfg) (Option (QSharedPointer (SocketLike Conn Cfg))) :=
  let armed : List (Event H Conn Cfg) :=
    [Event.timeout self._sslHandshakeTimeout,
     Event.sslSocketCreate request self._configuration]
  match env.createThrows request self._configuration with
  | some e => ⟨armed, Outcome.thrown e⟩
  | none =>
    let s : SslSocket Conn Cfg := ⟨request, self._configuration⟩
    let called := armed ++ [Event.handshake s true]
    match env.handshake s true self._sslHandshakeTimeout with
    | Outcome.thrown e => ⟨called, Outcome.thrown e⟩
    | Outcome.returned true => ⟨called, Outcome.returned (some (asSocketLike s))⟩
    | Outcome.returned false => ⟨called, Outcome.returned none⟩

/-- `QSharedPointer<SocketLike> WithSsl<ServerType>::prepareRequest(request)`:
the `try` block, the handler `catch (TimeoutException &) { }`, and the final
`return QSharedPointer<SocketLike>();`. -/
def prepareRequest (env : Env H Conn Cfg) (self : WithSsl S Cfg)
    (request : QSharedPointer (SocketLike Conn Cfg)) :
    Beh (Event H Conn Cfg) (QSharedPointer (SocketLike Conn Cfg)) :=
  let t := prepareRequestTry env self request
  match t.result with
  | Outcome.returned (some p) => ⟨t.trace, Outcome.returned p⟩
  | Outcome.returned none => ⟨t.trace, Outcome.returned none⟩
  | Outcome.thrown Exception.TimeoutException => ⟨t.trace, Outcome.returned none⟩
  | Outcome.thrown (Exception.other what) => ⟨t.trace, Outcome.thrown (Exception.other what)⟩

/-- The virtual functions of `WithSsl<ServerType>`: it overrides `isSecure` and
`prepareRequest` and inherits the rest from `ServerType`. -/
def cls (env : Env H Conn Cfg) (serverType : ServerClass S H Conn Cfg) :
    ServerClass (WithSsl S Cfg) H Conn Cfg :=
  { serverType.inherited WithSsl.base with
    isSecure := isSecure
    prepareRequest := prepareRequest env }

end WithSsl

/-! ## `SslServer<RequestHandler>` -/

/-- `class SslServer : public WithSsl<TcpServer<RequestHandler>>`; the class
adds no member. -/
abbrev SslServer (H Cfg : Type) := WithSsl (TcpServer H) Cfg

namespace SslServer

variable {H Conn Cfg : Type}

/-- `SslServer(const QHostAddress &serverAddress, quint16 serverPort)`. -/
def ctorAddressPort (env : Env H Conn Cfg) (serverAddress : QHostAddress) (serverPort : Nat) :
    SslServer H Cfg :=
  WithSsl.ctorAddressPort env TcpServer.ctorAddressPort serverAddress serverPort

/-- `SslServer(const QHostAddress &serverAddress, quint16 serverPort,
const SslConfiguration &configuration)`. -/
def ctorAddressPortConfiguration (serverAddress : QHostAddress) (serverPort : Nat)
    (configuration : Cfg) : SslServer H Cfg :=
  WithSsl.ctorAddressPortConfiguration TcpServer.ctorAddressPort serverAddress serverPort
    configuration

/-- `SslServer(quint16 serverPort)`. -/
def ctorPort (env : Env H Conn Cfg) (serverPort : Nat) : SslServer H Cfg :=
  WithSsl.ctorPort env TcpServer.ctorAddressPort serverPort

/-- `SslServer(quint16 serverPort, const SslConfiguration &configuration)`. -/
def ctorPortConfiguration (serverPort : Nat) (configuration : Cfg) : SslServer H Cfg :=
  WithSsl.ctorPortConfiguration TcpServer.ctorAddressPort serverPort configuration

/-- The virtual functions of `SslServer<RequestHandler>`: those of
`WithSsl<TcpServer<RequestHandler>>`. -/
def cls (env : Env H Conn Cfg) (fresh : H) (core : Virtuals BaseStreamServer H Conn Cfg) :
    ServerClass (SslServer H Cfg) H Conn Cfg :=
  WithSsl.cls env (TcpServer.cls env fresh core)

end SslServer

/-! ## The accept loop of the core -/

namespace BaseStreamServer

variable {S H Conn Cfg : Type}

/-- Modelled from the spec: the default `handleError(conn)` is defined in
`socket_server.cpp`, which is missing; per the spec (4.1) it is "close and
discard": the connection handed to it is closed. -/
def handleError (request : QSharedPointer (SocketLike Conn Cfg)) : Beh (Event H Conn Cfg) Unit :=
  match request with
  | some conn => ⟨[Event.close conn], Outcome.returned ()⟩
  | none => ⟨[], Outcome.returned ()⟩

/-- Modelled from the spec: one iteration of the accept loop of `serveForever()`,
which `socket_server.cpp` defines and which is missing.  Per the spec (4.1):
call `serviceActions()`; call `getRequest()`, and if it yields no connection the
iteration ends; otherwise call `prepareRequest()`, and if it yields no
connection discard the accepted one; otherwise call `verifyRequest()`, and if
false call `handleError()`; otherwise dispatch `processRequest()`.  Discarding
goes through `handleError()`, "the single point where such errors are observed
and the connection is discarded".  The calls of the dispatched task are listed
after those of the iteration that scheduled it.  The result is the connection
handed to `processRequest()`, or null when none was. -/
def acceptIteration (cls : ServerClass S H Conn Cfg) (self : S) :
    Beh (Event H Conn Cfg) (QSharedPointer (SocketLike Conn Cfg)) :=
  let actions := cls.serviceActions self
  let accepted := cls.getRequest self
  match accepted.result with
  | Outcome.returned (some raw) =>
    let prepared := cls.prepareRequest self (some raw)
    match prepared.result with
    | Outcome.returned (some conn) =>
      let verified := cls.verifyRequest self (some conn)
      match verified.result with
      | Outcome.returned true =>
        let task := cls.processRequest self (some conn)
        ⟨actions.trace ++ accepted.trace ++ prepared.trace ++ verified.trace ++ task.trace,
         Outcome.returned (some conn)⟩
      | _ =>
        let discarded := cls.handleError self (some conn)
        ⟨actions.trace ++ accepted.trace ++ prepared.trace ++ verified.trace ++ discarded.trace,
         Outcome.returned none⟩
    | _ =>
      let discarded := cls.handleError self (some raw)
      ⟨actions.trace ++ accepted.trace ++ prepared.trace ++ discarded.trace,
       Outcome.returned none⟩
  | _ => ⟨actions.trace ++ accepted.trace, Outcome.returned none⟩

end BaseStreamServer

/-! ## Concrete servers and environments -/

namespace Sample

/-- An environment in which every call made by the header succeeds. -/
def envOk : Env Unit Nat Nat where
  createThrows := fun _ _ => none
  handshake := fun _ _ _ => Outcome.returned true
  createServer := fun _ _ port _ => port
  testPurpose := fun _ _ _ => 0
  handlerRun := fun _ => Outcome.returned ()

/-- An environment in which the peer fails the handshake. -/
def envFalse : Env Unit Nat Nat :=
  { envOk with handshake := fun _ _ _ => Outcome.returned false }

/-- An environment in which the peer stalls until the deadline expires. -/
def envExpired : Env Unit Nat Nat :=
  { envOk with handshake := fun _ _ _ => Outcome.thrown Exception.TimeoutException }

/-- An environment in which the deadline expires while the secure socket is
being made. -/
def envCreateExpired : Env Unit Nat Nat :=
  { envOk with createThrows := fun _ _ => some Exception.TimeoutException }

/-- An environment in which the handshake raises an error other than the timeout. -/
def envBroken : Env Unit Nat Nat :=
  { envOk with handshake := fun _ _ _ => Outcome.thrown (Exception.other "handshake") }

/-- A core whose `getRequest()` accepts the transport connection `7`, whose
`handleError()` is the default one, and whose other functions do nothing. -/
def core : Virtuals BaseStreamServer Unit Nat Nat where
  isSecure := fun _ => false
  serverBind := fun _ => ⟨[Event.core "bind"], Outcome.returned true⟩
  serverActivate := fun _ => ⟨[Event.core "listen"], Outcome.returned true⟩
  serverClose := fun _ => ⟨[Event.core "close"], Outcome.returned ()⟩
  serviceActions := fun _ => ⟨[], Outcome.returned true⟩
  getRequest := fun _ => ⟨[Event.core "accept"], Outcome.returned (some (SocketLike.transport 7))⟩
  prepareRequest := fun _ request => ⟨[], Outcome.returned request⟩
  verifyRequest := fun _ _ => ⟨[], Outcome.returned true⟩
  handleError := fun _ request => BaseStreamServer.handleError request
  shutdownRequest := fun _ _ => ⟨[Event.core "shutdownRequest"], Outcome.returned ()⟩
  closeRequest := fun _ _ => ⟨[Event.core "closeRequest"], Outcome.returned ()⟩

/-- The accepted transport connection `7`. -/
def raw : SocketLike Nat Nat :=
  SocketLike.transport 7

/-- A freshly constructed `SslServer` on port 1080 with configuration `42`. -/
def server : SslServer Unit Nat :=
  SslServer.ctorPortConfiguration 1080 42

/-- The same server once it is running. -/
def running : SslServer Unit Nat :=
  { server with base := ⟨{ server.base.base with state := Lifecycle.Running }⟩ }

end Sample

/-! ## Results about `WithSsl::prepareRequest` -/

namespace WithSsl

variable {S Cfg Conn H : Type}

/-- C1: when the secure socket has been made, `prepareRequest` returns the null
pointer both when `handshake(true)` returns false and when the deadline expires
in it (`TimeoutException`); the two runs make the same calls and end the same
way, so the caller cannot tell them apart. -/
theorem prepareRequest_failure_and_timeout_alike (envFalse envExpired : Env H Conn Cfg)
    (self : WithSsl S Cfg) (request : QSharedPointer (SocketLike Conn Cfg))
    (hcreateFalse : envFalse.createThrows request self.sslConfiguration = none)
    (hcreateExpired : envExpired.createThrows request self.sslConfiguration = none)
    (hfalse : envFalse.handshake ⟨request, self.sslConfiguration⟩ true self.sslHandshakeTimeout
      = Outcome.returned false)
    (hexpired : envExpired.handshake ⟨request, self.sslConfiguration⟩ true
      self.sslHandshakeTimeout = Outcome.thrown Exception.TimeoutException) :
    (prepareRequest envFalse self request).result = Outcome.returned none ∧
    (prepareRequest envExpired self request).result = Outcome.returned none ∧
    prepareRequest envFalse self request = prepareRequest envExpired self request := by
  simp only [sslConfiguration, sslHandshakeTimeout] at hcreateFalse hcreateExpired hfalse hexpired
  simp [prepareRequest, prepareRequestTry, hcreateFalse, hcreateExpired, hfalse, hexpired]

/-- The secure socket made from `request` and the current configuration is the
one `prepareRequest` hands to `handshake`. -/
theorem prepareRequest_cases (env : Env H Conn Cfg) (self : WithSsl S Cfg)
    (request : QSharedPointer (SocketLike Conn Cfg)) :
    (prepareRequest env self request).result =
      match env.createThrows request self._configuration with
      | some Exception.TimeoutException => Outcome.returned none
      | some (Exception.other what) => Outcome.thrown (Exception.other what)
      | none =>
        match env.handshake ⟨request, self._configuration⟩ true self._sslHandshakeTimeout with
        | Outcome.returned true => Outcome.returned (asSocketLike ⟨request, self._configuration⟩)
        | Outcome.returned false => Outcome.returned none
        | Outcome.thrown Exception.TimeoutException => Outcome.returned none
        | Outcome.thrown (Exception.other what) => Outcome.thrown (Exception.other what) := by
  cases hc : env.createThrows request self._configuration with
  | some e => cases e <;> simp [prepareRequest, prepareRequestTry, hc]
  | none =>
    cases hh : env.handshake ⟨request, self._configuration⟩ true self._sslHandshakeTimeout with
    | returned b => cases b <;> simp [prepareRequest, prepareRequestTry, hc, hh]
    | thrown e => cases e <;> simp [prepareRequest, prepareRequestTry, hc, hh]

/-- The calls `prepareRequest` makes. -/
theorem prepareRequest_trace (env : Env H Conn Cfg) (self : WithSsl S Cfg)
    (request : QSharedPointer (SocketLike Conn Cfg)) :
    (prepareRequest (H := H) env self request).trace =
      match env.createThrows request self._configuration with
      | some _ =>
        [Event.timeout self._sslHandshakeTimeout,
         Event.sslSocketCreate request self._configuration]
      | none =>
        [Event.timeout self._sslHandshakeTimeout,
         Event.sslSocketCreate request self._configuration,
         Event.handshake ⟨request, self._configuration⟩ true] := by
  cases hc : env.createThrows request self._configuration with
  | some e => cases e <;> simp [prepareRequest, prepareRequestTry, hc]
  | none =>
    cases hh : env.handshake ⟨request, self._configuration⟩ true self._sslHandshakeTimeout with
    | returned b => cases b <;> simp [prepareRequest, prepareRequestTry, hc, hh]
    | thrown e => cases e <;> simp [prepareRequest, prepareRequestTry, hc, hh]

/-- C1 at a concrete server: a failed handshake and an expired deadline both
give the null pointer. -/
theorem prepareRequest_failure_and_timeout_alike_witness :
    (prepareRequest Sample.envFalse Sample.server (some Sample.raw)).result
      = Outcome.returned none ∧
    (prepareRequest Sample.envExpired Sample.server (some Sample.raw)).result
      = Outcome.returned none ∧
    prepareRequest Sample.envFalse Sample.server (some Sample.raw)
      = prepareRequest Sample.envExpired Sample.server (some Sample.raw) :=
  prepareRequest_failure_and_timeout_alike Sample.envFalse Sample.envExpired Sample.server
    (some Sample.raw) rfl rfl rfl rfl

/-- C2, as stated, fails: when the handshake raises an error other than the
timeout, `prepareRequest` does not return; the error leaves it. -/
theorem prepareRequest_other_error_escapes :
    (prepareRequest Sample.envBroken Sample.server (some Sample.raw)).result
      = Outcome.thrown (Exception.other "handshake") ∧
    ¬ ∃ p, (prepareRequest Sample.envBroken Sample.server (some Sample.raw)).result
      = Outcome.returned p := by
  constructor
  · rfl
  · rintro ⟨p, hp⟩
    have h : (prepareRequest Sample.envBroken Sample.server (some Sample.raw)).result
        = Outcome.thrown (Exception.other "handshake") := rfl
    rw [h] at hp
    cases hp

/-- C2 (amended): `TimeoutException` never leaves `prepareRequest`.  When the
construction of the secure socket or the handshake raises it, or the handshake
returns false, `prepareRequest` returns the null pointer; when the handshake
returns true it returns the wrapper of the secure socket made from the request
and the current configuration.  An error other than the timeout, raised by the
construction or by the handshake, leaves `prepareRequest` unchanged, and these
are the only errors that leave it; so it returns normally exactly when neither
call raises such an error. -/
theorem prepareRequest_only_timeout_caught (env : Env H Conn Cfg) (self : WithSsl S Cfg)
    (request : QSharedPointer (SocketLike Conn Cfg)) :
    (prepareRequest env self request).result ≠ Outcome.thrown Exception.TimeoutException ∧
    ((∃ p, (prepareRequest env self request).result = Outcome.returned p) ↔
      (∀ what, env.createThrows request self.sslConfiguration ≠ some (Exception.other what)) ∧
      (env.createThrows request self.sslConfiguration = none →
        ∀ what, env.handshake ⟨request, self.sslConfiguration⟩ true self.sslHandshakeTimeout
          ≠ Outcome.thrown (Exception.other what))) ∧
    (∀ e, (prepareRequest env self request).result = Outcome.thrown e →
      e ≠ Exception.TimeoutException ∧
      (env.createThrows request self.sslConfiguration = some e ∨
        (env.createThrows request self.sslConfiguration = none ∧
          env.handshake ⟨request, self.sslConfiguration⟩ true self.sslHandshakeTimeout
            = Outcome.thrown e))) ∧
    (env.createThrows request self.sslConfiguration = some Exception.TimeoutException →
      (prepareRequest env self request).result = Outcome.returned none) ∧
    (env.createThrows request self.sslConfiguration = none →
      env.handshake ⟨request, self.sslConfiguration⟩ true self.sslHandshakeTimeout
        = Outcome.thrown Exception.TimeoutException →
      (prepareRequest env self request).result = Outcome.returned none) ∧
    (env.createThrows request self.sslConfiguration = none →
      env.handshake ⟨request, self.sslConfiguration⟩ true self.sslHandshakeTimeout
        = Outcome.returned false →
      (prepareRequest env self request).result = Outcome.returned none) ∧
    (env.createThrows request self.sslConfiguration = none →
      env.handshake ⟨request, self.sslConfiguration⟩ true self.sslHandshakeTimeout
        = Outcome.returned true →
      (prepareRequest env self request).result
        = Outcome.returned (some (SocketLike.ssl request self.sslConfiguration))) ∧
    (∀ what, env.createThrows request self.sslConfiguration = some (Exception.other what) →
      (prepareRequest env self request).result = Outcome.thrown (Exception.other what)) ∧
    (∀ what, env.createThrows request self.sslConfiguration = none →
      env.handshake ⟨request, self.sslConfiguration⟩ true self.sslHandshakeTimeout
        = Outcome.thrown (Exception.other what) →
      (prepareRequest env self request).result = Outcome.thrown (Exception.other what)) := by
  rw [prepareRequest_cases]
  simp only [sslConfiguration, sslHandshakeTimeout]
  cases hc : env.createThrows request self._configuration with
  | some e => cases e <;> simp
  | none =>
    cases hh : env.handshake ⟨request, self._configuration⟩ true self._sslHandshakeTimeout with
    | returned b => cases b <;> simp [asSocketLike]
    | thrown e => cases e <;> simp

/-- C3: when the secure socket has been made and `handshake(true)` returns true
within the deadline, `prepareRequest` returns the non-null Socket-Like wrapper
of the secure socket made from exactly the given connection and the server's
current configuration, and the only handshake it ran is the server-side one on
that socket. -/
theorem prepareRequest_success (env : Env H Conn Cfg) (self : WithSsl S Cfg)
    (request : QSharedPointer (SocketLike Conn Cfg))
    (hcreate : env.createThrows request self.sslConfiguration = none)
    (hok : env.handshake ⟨request, self.sslConfiguration⟩ true self.sslHandshakeTimeout
      = Outcome.returned true) :
    (prepareRequest env self request).result
      = Outcome.returned (some (SocketLike.ssl request self.sslConfiguration)) ∧
    (prepareRequest env self request).result ≠ Outcome.returned none ∧
    (prepareRequest (H := H) env self request).trace
      = [Event.timeout self.sslHandshakeTimeout,
         Event.sslSocketCreate request self.sslConfiguration,
         Event.handshake ⟨request, self.sslConfiguration⟩ true] ∧
    (∀ s asServer, Event.handshake s asServer ∈ (prepareRequest (H := H) env self request).trace →
      s = ⟨request, self.sslConfiguration⟩ ∧ asServer = true) := by
  simp only [sslConfiguration, sslHandshakeTimeout] at hcreate hok ⊢
  rw [prepareRequest_cases, prepareRequest_trace, hcreate, hok]
  simp [asSocketLike]

/-- C3 at a concrete server: the accepted connection `7` comes back wrapped with
configuration `42`. -/
theorem prepareRequest_success_witness :
    (prepareRequest Sample.envOk Sample.server (some Sample.raw)).result
      = Outcome.returned (some (SocketLike.ssl (some Sample.raw) 42)) :=
  (prepareRequest_success Sample.envOk Sample.server (some Sample.raw) rfl rfl).1

/-- C10: the setters store what they are given and the next `prepareRequest`
uses it.  After `setSslHandshakeTimeout(t)` the getter returns `t`, the
configuration is unchanged, and `prepareRequest` first arms a `Timeout` of
exactly `t` and arms no other; after `setSslConfiguration(c)` the getter returns
`c`, the timeout is unchanged, and `prepareRequest` makes the secure socket from
the request and exactly `c`. -/
theorem setters_take_effect (env : Env H Conn Cfg) (self : WithSsl S Cfg) (t : CFloat) (c : Cfg)
    (request : QSharedPointer (SocketLike Conn Cfg)) :
    (self.setSslHandshakeTimeout t).sslHandshakeTimeout = t ∧
    (self.setSslHandshakeTimeout t).sslConfiguration = self.sslConfiguration ∧
    (prepareRequest (H := H) env (self.setSslHandshakeTimeout t) request).trace.head?
      = some (Event.timeout t) ∧
    (∀ u, Event.timeout u ∈ (prepareRequest (H := H) env (self.setSslHandshakeTimeout t)
      request).trace → u = t) ∧
    (self.setSslConfiguration c).sslConfiguration = c ∧
    (self.setSslConfiguration c).sslHandshakeTimeout = self.sslHandshakeTimeout ∧
    Event.sslSocketCreate request c
      ∈ (prepareRequest (H := H) env (self.setSslConfiguration c) request).trace ∧
    (∀ r k, Event.sslSocketCreate r k
      ∈ (prepareRequest (H := H) env (self.setSslConfiguration c) request).trace →
      r = request ∧ k = c) := by
  simp only [prepareRequest_trace]
  refine ⟨rfl, rfl, ?_, ?_, rfl, rfl, ?_, ?_⟩
  · cases env.createThrows request (self.setSslHandshakeTimeout t)._configuration <;>
      simp [setSslHandshakeTimeout]
  · cases env.createThrows request (self.setSslHandshakeTimeout t)._configuration <;>
      simp [setSslHandshakeTimeout]
  · cases env.createThrows request (self.setSslConfiguration c)._configuration <;>
      simp [setSslConfiguration]
  · cases env.createThrows request (self.setSslConfiguration c)._configuration <;>
      simp [setSslConfiguration]

/-- C5, as stated, fails: on a running server both setters change what the
getters return. -/
theorem setters_change_running_server :
    Sample.running.base.base.activated ∧
    (Sample.running.setSslHandshakeTimeout (CFloat.finite 1)).sslHandshakeTimeout
      ≠ Sample.running.sslHandshakeTimeout ∧
    (Sample.running.setSslConfiguration 43).sslConfiguration
      ≠ Sample.running.sslConfiguration := by
  refine ⟨Or.inr rfl, ?_, ?_⟩
  · simp [setSslHandshakeTimeout, sslHandshakeTimeout, Sample.running, Sample.server,
      SslServer.ctorPortConfiguration, ctorPortConfiguration]
    norm_num
  · simp [setSslConfiguration, sslConfiguration, Sample.running, Sample.server,
      SslServer.ctorPortConfiguration, ctorPortConfiguration]

/-- C5 (amended): the setters do not look at the lifecycle state.  In every
state of the server, activated or not, `setSslConfiguration(c)` makes
`sslConfiguration()` return `c` and `setSslHandshakeTimeout(t)` makes
`sslHandshakeTimeout()` return `t`, so a getter keeps its value exactly when
the value set equals it; the `ServerType` sub-object, and with it the lifecycle
state, is left as it was. -/
theorem setters_ignore_lifecycle (self : WithSsl S Cfg) (c : Cfg) (t : CFloat) :
    (self.setSslConfiguration c).sslConfiguration = c ∧
    (self.setSslHandshakeTimeout t).sslHandshakeTimeout = t ∧
    ((self.setSslConfiguration c).sslConfiguration = self.sslConfiguration
      ↔ c = self.sslConfiguration) ∧
    ((self.setSslHandshakeTimeout t).sslHandshakeTimeout = self.sslHandshakeTimeout
      ↔ t = self.sslHandshakeTimeout) ∧
    (self.setSslConfiguration c).base = self.base ∧
    (self.setSslHandshakeTimeout t).base = self.base :=
  ⟨rfl, rfl, Iff.rfl, Iff.rfl, rfl, rfl⟩

/-- C6: each of the four `WithSsl` constructors, and so each of the four
`SslServer` constructors, leaves the handshake timeout at 5.0 seconds, and a
constructor given a configuration stores exactly that configuration. -/
theorem ctor_timeout_and_configuration (env : Env H Conn Cfg)
    (serverType : QHostAddress → Nat → S) (serverAddress : QHostAddress) (serverPort : Nat)
    (configuration : Cfg) :
    (ctorAddressPort env serverType serverAddress serverPort).sslHandshakeTimeout
      = CFloat.finite 5.0 ∧
    (ctorAddressPortConfiguration serverType serverAddress serverPort
      configuration).sslHandshakeTimeout = CFloat.finite 5.0 ∧
    (ctorPort env serverType serverPort).sslHandshakeTimeout = CFloat.finite 5.0 ∧
    (ctorPortConfiguration serverType serverPort configuration).sslHandshakeTimeout
      = CFloat.finite 5.0 ∧
    (ctorAddressPortConfiguration serverType serverAddress serverPort
      configuration).sslConfiguration = configuration ∧
    (ctorPortConfiguration serverType serverPort configuration).sslConfiguration
      = configuration ∧
    (SslServer.ctorAddressPort env serverAddress serverPort).sslHandshakeTimeout
      = CFloat.finite 5.0 ∧
    (SslServer.ctorAddressPortConfiguration (H := H) serverAddress serverPort
      configuration).sslHandshakeTimeout = CFloat.finite 5.0 ∧
    (SslServer.ctorPort env serverPort).sslHandshakeTimeout = CFloat.finite 5.0 ∧
    (SslServer.ctorPortConfiguration (H := H) serverPort configuration).sslHandshakeTimeout
      = CFloat.finite 5.0 ∧
    (SslServer.ctorAddressPortConfiguration (H := H) serverAddress serverPort
      configuration).sslConfiguration = configuration ∧
    (SslServer.ctorPortConfiguration (H := H) serverPort configuration).sslConfiguration
      = configuration :=
  ⟨rfl, rfl, rfl, rfl, rfl, rfl, rfl, rfl, rfl, rfl, rfl, rfl⟩

/-- C7: `isSecure()` is true for every `WithSsl<ServerType>` object, whatever the
wrapped server class, its state, the configuration and the timeout, both called
directly and through the table of virtual functions, and so for every
`SslServer`. -/
theorem isSecure_true (env : Env H Conn Cfg) (serverType : ServerClass S H Conn Cfg)
    (self : WithSsl S Cfg) (fresh : H) (core : Virtuals BaseStreamServer H Conn Cfg)
    (sslServer : SslServer H Cfg) :
    self.isSecure = true ∧
    (cls env serverType).isSecure self = true ∧
    (SslServer.cls env fresh core).isSecure sslServer = true :=
  ⟨rfl, rfl, rfl⟩

/-- C9: `WithSsl<ServerType>` overrides `prepareRequest` and `isSecure` and
nothing else: every other virtual function is the one of `ServerType` run on
the `ServerType` sub-object, so whatever `prepareRequest` returned is processed
by `ServerType::processRequest`; for `SslServer` these are the functions of
`TcpServer`. -/
theorem withSsl_inherits_the_rest (env : Env H Conn Cfg) (serverType : ServerClass S H Conn Cfg)
    (self : WithSsl S Cfg) (request : QSharedPointer (SocketLike Conn Cfg))
    (fresh : H) (core : Virtuals BaseStreamServer H Conn Cfg) (sslServer : SslServer H Cfg) :
    (cls env serverType).serverCreate self = serverType.serverCreate self.base ∧
    (cls env serverType).processRequest self request
      = serverType.processRequest self.base request ∧
    (cls env serverType).serverBind self = serverType.serverBind self.base ∧
    (cls env serverType).serverActivate self = serverType.serverActivate self.base ∧
    (cls env serverType).serverClose self = serverType.serverClose self.base ∧
    (cls env serverType).serviceActions self = serverType.serviceActions self.base ∧
    (cls env serverType).getRequest self = serverType.getRequest self.base ∧
    (cls env serverType).verifyRequest self request
      = serverType.verifyRequest self.base request ∧
    (cls env serverType).handleError self request
      = serverType.handleError self.base request ∧
    (cls env serverType).shutdownRequest self request
      = serverType.shutdownRequest self.base request ∧
    (cls env serverType).closeRequest self request
      = serverType.closeRequest self.base request ∧
    (cls env serverType).prepareRequest self request = prepareRequest env self request ∧
    (cls env serverType).isSecure self = true ∧
    (∀ conn, (prepareRequest (H := H) env self request).result = Outcome.returned conn →
      (cls env serverType).processRequest self conn
        = serverType.processRequest self.base conn) ∧
    (SslServer.cls env fresh core).serverCreate sslServer
      = TcpServer.serverCreate env sslServer.base ∧
    (SslServer.cls env fresh core).processRequest sslServer request
      = TcpServer.processRequest env fresh sslServer.base request :=
  ⟨rfl, rfl, rfl, rfl, rfl, rfl, rfl, rfl, rfl, rfl, rfl, rfl, rfl, fun _ _ => rfl, rfl, rfl⟩

end WithSsl

/-! ## Results about dispatch -/

section Dispatch

variable {S Cfg Conn H : Type}

/-- C8: `processRequest(c)` of `TcpServer<H>` and of `KcpServer<H>` is the same
function of the server state and `c`: it declares one handler, whose own
members are freshly constructed, sets its `request` to `c` and its `server` to
the server, and calls `run()` on it once, ending the way `run()` ends.  The two
classes differ in `serverCreate` only, which asks `Socket`, respectively
`KcpSocket`, for the listening socket. -/
theorem processRequest_tcp_kcp (env : Env H Conn Cfg) (fresh : H) (server : BaseStreamServer)
    (c : QSharedPointer (SocketLike Conn Cfg)) :
    TcpServer.processRequest env fresh ⟨server⟩ c = KcpServer.processRequest env fresh ⟨server⟩ c ∧
    (TcpServer.processRequest env fresh ⟨server⟩ c).trace
      = [Event.handlerConstruct,
         Event.handlerRun { members := fresh, request := c, server := some server }] ∧
    (TcpServer.processRequest env fresh ⟨server⟩ c).result
      = env.handlerRun { members := fresh, request := c, server := some server } ∧
    (KcpServer.processRequest env fresh ⟨server⟩ c).trace
      = [Event.handlerConstruct,
         Event.handlerRun { members := fresh, request := c, server := some server }] ∧
    (KcpServer.processRequest env fresh ⟨server⟩ c).result
      = env.handlerRun { members := fresh, request := c, server := some server } ∧
    (TcpServer.serverCreate env ⟨server⟩).trace
      = [Event.createServer Transport.Socket server.serverAddress server.serverPort 0] ∧
    (KcpServer.serverCreate env ⟨server⟩).trace
      = [Event.createServer Transport.KcpSocket server.serverAddress server.serverPort 0] :=
  ⟨rfl, rfl, rfl, rfl, rfl, rfl, rfl⟩

/-- C4: on a security-wrapped server with handshake timeout `T` whose
`handleError()` is the default one, when the deadline armed by `prepareRequest`
expires for the accepted connection, be it while the secure socket is made or
in the handshake, the iteration of the accept loop hands no connection to
`processRequest` and the accepted raw connection is closed.  The calls of the
iteration are those of `serviceActions()` and `getRequest()`, those of
`prepareRequest` (the `Timeout` of `T`, the construction of the secure socket
and, when that was reached, the server-side handshake), and the `close()` of
the accepted connection; no handler is constructed or run for it, and whatever
`processRequest` is, it has no part in the iteration. -/
theorem acceptIteration_deadline_expired (env : Env H Conn Cfg)
    (serverType : ServerClass S H Conn Cfg) (self : WithSsl S Cfg) (raw : SocketLike Conn Cfg)
    (haccept : (serverType.getRequest self.base).result = Outcome.returned (some raw))
    (hexpired :
      env.createThrows (some raw) self.sslConfiguration = some Exception.TimeoutException ∨
      (env.createThrows (some raw) self.sslConfiguration = none ∧
        env.handshake ⟨some raw, self.sslConfiguration⟩ true self.sslHandshakeTimeout
          = Outcome.thrown Exception.TimeoutException))
    (hdefault : serverType.handleError self.base (some raw)
      = BaseStreamServer.handleError (some raw)) :
    (BaseStreamServer.acceptIteration (WithSsl.cls env serverType) self).result
      = Outcome.returned none ∧
    (BaseStreamServer.acceptIteration (WithSsl.cls env serverType) self).trace
      = (serverType.serviceActions self.base).trace ++ (serverType.getRequest self.base).trace
        ++ (WithSsl.prepareRequest env self (some raw)).trace ++ [Event.close raw] ∧
    Event.close raw ∈ (BaseStreamServer.acceptIteration (WithSsl.cls env serverType) self).trace ∧
    (∀ e ∈ (WithSsl.prepareRequest (H := H) env self (some raw)).trace ++ [Event.close raw],
      e ≠ Event.handlerConstruct ∧ ∀ handler, e ≠ Event.handlerRun handler) ∧
    (env.createThrows (some raw) self.sslConfiguration = some Exception.TimeoutException →
      (BaseStreamServer.acceptIteration (WithSsl.cls env serverType) self).trace
        = (serverType.serviceActions self.base).trace ++ (serverType.getRequest self.base).trace
          ++ [Event.timeout self.sslHandshakeTimeout,
              Event.sslSocketCreate (some raw) self.sslConfiguration]
          ++ [Event.close raw]) ∧
    (env.createThrows (some raw) self.sslConfiguration = none →
      (BaseStreamServer.acceptIteration (WithSsl.cls env serverType) self).trace
        = (serverType.serviceActions self.base).trace ++ (serverType.getRequest self.base).trace
          ++ [Event.timeout self.sslHandshakeTimeout,
              Event.sslSocketCreate (some raw) self.sslConfiguration,
              Event.handshake ⟨some raw, self.sslConfiguration⟩ true]
          ++ [Event.close raw]) ∧
    (∀ processRequest,
      BaseStreamServer.acceptIteration
        (WithSsl.cls env { serverType with processRequest := processRequest }) self
      = BaseStreamServer.acceptIteration (WithSsl.cls env serverType) self) := by
  simp only [WithSsl.sslConfiguration, WithSsl.sslHandshakeTimeout] at hexpired ⊢
  have hres := WithSsl.prepareRequest_cases env self (some raw)
  have htr := WithSsl.prepareRequest_trace (H := H) env self (some raw)
  rcases hexpired with hcreate | ⟨hcreate, hshake⟩
  · rw [hcreate] at hres htr
    simp only at hres htr
    simp [BaseStreamServer.acceptIteration, WithSsl.cls, ServerClass.inherited,
      Virtuals.inherited, haccept, hres, htr, hcreate, hdefault, BaseStreamServer.handleError]
  · rw [hcreate] at hres htr
    rw [hshake] at hres
    simp only at hres htr
    simp [BaseStreamServer.acceptIteration, WithSsl.cls, ServerClass.inherited,
      Virtuals.inherited, haccept, hres, htr, hcreate, hdefault, BaseStreamServer.handleError]

/-- C4 at a concrete server, for a deadline that expires in the handshake and
for one that expires while the secure socket is made: the stalled connection
`7` is closed and no handler is constructed or run. -/
theorem acceptIteration_deadline_expired_witness :
    ((BaseStreamServer.acceptIteration
        (SslServer.cls Sample.envExpired () Sample.core) Sample.server).result
        = Outcome.returned none ∧
      (BaseStreamServer.acceptIteration
        (SslServer.cls Sample.envExpired () Sample.core) Sample.server).trace
        = [Event.core "accept", Event.timeout (CFloat.finite 5.0),
           Event.sslSocketCreate (some Sample.raw) 42,
           Event.handshake ⟨some Sample.raw, 42⟩ true, Event.close Sample.raw]) ∧
    ((BaseStreamServer.acceptIteration
        (SslServer.cls Sample.envCreateExpired () Sample.core) Sample.server).result
        = Outcome.returned none ∧
      (BaseStreamServer.acceptIteration
        (SslServer.cls Sample.envCreateExpired () Sample.core) Sample.server).trace
        = [Event.core "accept", Event.timeout (CFloat.finite 5.0),
           Event.sslSocketCreate (some Sample.raw) 42, Event.close Sample.raw]) :=
  ⟨⟨(acceptIteration_deadline_expired Sample.envExpired
        (TcpServer.cls Sample.envExpired () Sample.core) Sample.server Sample.raw
        rfl (Or.inr ⟨rfl, rfl⟩) rfl).1,
    (acceptIteration_deadline_expired Sample.envExpired
        (TcpServer.cls Sample.envExpired () Sample.core) Sample.server Sample.raw
        rfl (Or.inr ⟨rfl, rfl⟩) rfl).2.2.2.2.2.1 rfl⟩,
   ⟨(acceptIteration_deadline_expired Sample.envCreateExpired
        (TcpServer.cls Sample.envCreateExpired () Sample.core) Sample.server Sample.raw
        rfl (Or.inl rfl) rfl).1,
    (acceptIteration_deadline_expired Sample.envCreateExpired
        (TcpServer.cls Sample.envCreateExpired () Sample.core) Sample.server Sample.raw
        rfl (Or.inl rfl) rfl).2.2.2.2.1 rfl⟩⟩

end Dispatch

end QtNetworkNg
